import Mathlib

/-!
Verification of the orchestration layer of an agent-rollout runner.

The definitions below are a shallow embedding of the Python sources:

* `src/run_agent_on_swebench_problem.py` — shard planning (`main`, the
  `iloc` slice and the `num_examples` assertion), the idempotent resume
  gate (`should_process_issue`), the per-problem rollout scheduler
  (`Pool.starmap` over rollout indices), the per-rollout executor
  (`run_agent_on_single_problem` with its `try/finally` teardown) and the
  checkpoint writer (the `open(output_path, "w")` rewrite).
* `src/utils/docker_utils.py` — `start_container` / `stop_container` /
  `setup_workspace` and `MAX_DOCKER_CONCURRENCY` with the shared counting
  semaphore guarding image pulls and container starts.
* `src/tools/search.py` — `SearchTool.run_impl`.

External effects (the container daemon, the agent process, the filesystem,
the Exa API) are modelled by explicit oracle parameters and event traces;
machine control flow (branches, exception propagation, `finally` blocks)
is translated faithfully from the source.
-/

namespace Orchestrator

/-! ### Shard Planner

`main` computes
  `num_examples_per_shard = len(swebench_dataset) // args.shard_ct`
and selects
  `examples = swebench_dataset.iloc[shard_id * q : (shard_id + 1) * q]`.
Problems are modelled by their position `0, 1, ..., n-1` in the ordered
dataset; `iloc[a : b]` on a length-`n` frame keeps positions `a ≤ i < min b n`.
-/

/-- `num_examples_per_shard = len(dataset) // shard_ct`. -/
def num_examples_per_shard (n shard_ct : Nat) : Nat := n / shard_ct

/-- The problem positions selected by
`dataset.iloc[shard_id * q : (shard_id + 1) * q]` where
`q = num_examples_per_shard n shard_ct`. -/
def shardSlice (n shard_ct shard_id : Nat) : List Nat :=
  let q := num_examples_per_shard n shard_ct
  ((List.range n).drop (shard_id * q)).take ((shard_id + 1) * q - shard_id * q)

/-- The fatal configuration failure raised by the
`assert args.num_examples is None or args.num_examples <= len(examples)`
guard in `main` (the spec's ConfigurationError). -/
inductive ConfigurationError where
  | numExamplesExceedsShard (numExamples shardLen : Nat)
deriving DecidableEq, Repr

/-- The examples `main` will iterate over: the shard slice, capped by the
optional `--num-examples` argument; the assertion fires, before any problem
is processed, when the cap exceeds the slice length
(`for i in range(num_examples): problem = examples.iloc[i]`). -/
def selectExamples (n shard_ct shard_id : Nat) (numExamples : Option Nat) :
    Except ConfigurationError (List Nat) :=
  let slice := shardSlice n shard_ct shard_id
  match numExamples with
  | none => .ok slice
  | some k =>
      if k ≤ slice.length then .ok (slice.take k)
      else .error (.numExamplesExceedsShard k slice.length)

/-! ### Rollout Executor and Sandbox Lifecycle

One rollout (`run_agent_on_single_problem` together with
`setup_workspace` / `start_container` / `stop_container`) is embedded as
a function from a fault-injection oracle to the trace of container-daemon
and filesystem events it performs, plus its outcome (normal return of the
diff, or the exception it propagates).

`start_container` first calls `stop_container("sweb.augment.<problem_id>")`
on a stale name; every freshly started container carries a uuid suffix, so
that lookup fails and is swallowed — it never touches the container of this
rollout and is not an event here.  The trailing `generate_patch` smoke test
at the end of `start_container` sits in a `try/except` that swallows any
exception, so it cannot alter control flow and is likewise not a fault
point. -/

/-- Events one rollout performs against the container daemon and the
filesystem, in program order. -/
inductive Ev where
  | pullImage
  | createContainer (cid : Nat)
  | copyOut (cid : Nat)
  | agentInvoked
  | generatePatch
  | writePredictions (pid : String)
  | stopContainer (cid : Nat)
  | evaluate
deriving DecidableEq, Repr

/-- Fault injection for one rollout: whether each external operation
succeeds (`True`) or raises (`False`), and the patch text `generate_patch`
yields when it succeeds. -/
structure FaultSpec where
  pullOk : Bool
  startOk : Bool
  copyOk : Bool
  agentOk : Bool
  diffOk : Bool
  patchText : String
deriving DecidableEq, Repr

/-- The exception a rollout propagates, by the operation that raised it. -/
inductive RolloutError where
  | pullFailed
  | containerStartFailed
  | copyOutFailed
  | agentRaised
  | diffFailed
deriving DecidableEq, Repr

/-- `start_container` (src/utils/docker_utils.py): pull the image and run
the container, each inside `with semaphore:`; then `docker cp` the working
tree out (`check=True`, re-raised on failure).  A failure raises at that
point; events before it have already happened.  On the copy-out failure
path the container named by `cid` has already been created but the id is
never returned to the caller. -/
def start_container (f : FaultSpec) (cid : Nat) : List Ev × Except RolloutError Nat :=
  if f.pullOk = false then ([], .error .pullFailed)
  else if f.startOk = false then ([.pullImage], .error .containerStartFailed)
  else if f.copyOk = false then
    ([.pullImage, .createContainer cid], .error .copyOutFailed)
  else ([.pullImage, .createContainer cid, .copyOut cid], .ok cid)

/-- `setup_workspace` makes the workspace directories, runs a `conda
create` under the shared lock, builds the environment dict, and delegates
sandbox acquisition to `start_container`, returning its container id. -/
def setup_workspace (f : FaultSpec) (cid : Nat) : List Ev × Except RolloutError Nat :=
  start_container f cid

/-- `run_agent_on_single_problem`: `container_id = None`; inside `try`,
`container_id` is assigned from `setup_workspace`, the agent runs via
`cli_main()`, `generate_patch` is attempted, and the predictions records
are written; the `finally` block calls `stop_container(container_id)` only
when `container_id is not None`.  When `setup_workspace` raises, the
assignment never happened, so the `finally` block stops nothing.  The
evaluation call happens after the `finally` block. -/
def run_agent_on_single_problem (f : FaultSpec) (cid : Nat) (pid : String) :
    List Ev × Except RolloutError String :=
  match setup_workspace f cid with
  | (evs, .error e) => (evs, .error e)
  | (evs, .ok c) =>
      let evs := evs ++ [.agentInvoked]
      if f.agentOk = false then (evs ++ [.stopContainer c], .error .agentRaised)
      else
        let evs := evs ++ [.generatePatch]
        if f.diffOk = false then (evs ++ [.stopContainer c], .error .diffFailed)
        else
          (evs ++ [.writePredictions pid, .stopContainer c, .evaluate], .ok f.patchText)

/-- The ids of the containers a trace actually created. -/
def createdContainers (evs : List Ev) : List Nat :=
  evs.filterMap fun e => match e with
    | .createContainer c => some c
    | _ => none

/-- How many times a trace ran the release operation (`stop_container`)
on container `c`. -/
def stopCount (evs : List Ev) (c : Nat) : Nat :=
  evs.count (.stopContainer c)

/-! ### Rollout Scheduler, Result Aggregator, Resume Gate

The per-problem body of `main`: the resume gate `should_process_issue`,
`Pool.starmap` over the rollout indices, aggregation into `diff_data`, the
append to `all_diff_data` and the full rewrite of the checkpoint file.
The whole body sits under `try: ... except Exception: continue`, so a
raising pool appends no record.  Rollout outcomes are supplied as an
oracle `rollout : Nat → Except RolloutError DiffResult`. -/

/-- What one successful rollout hands back to `main`:
`(diff, agent_duration, eval_outcomes)`. -/
structure DiffResult where
  diff : String
  agent_duration : Nat
  eval_outcome : Bool
deriving DecidableEq, Repr

/-- `np.median`, with the float domain of durations abstracted to `Nat`
(middle element of the sorted list, or the mean of the two middle
elements). -/
def npMedian (l : List Nat) : Nat :=
  let s := l.mergeSort (· ≤ ·)
  if l.length % 2 = 1 then s.getD (l.length / 2) 0
  else (s.getD (l.length / 2 - 1) 0 + s.getD (l.length / 2) 0) / 2

/-- The per-problem `diff_data` dict: exactly the six keys
`{id, instruction, diffs, agent_durations, median_duration, eval_outcomes}`. -/
structure AggregateRecord where
  id : String
  instruction : String
  diffs : List String
  agent_durations : List Nat
  median_duration : Nat
  eval_outcomes : List Bool
deriving DecidableEq, Repr

/-- Building `diff_data` from the zipped `pool.starmap` results. -/
def mkAggregateRecord (pid statement : String) (rs : List DiffResult) : AggregateRecord :=
  { id := pid
    instruction := statement
    diffs := rs.map (·.diff)
    agent_durations := rs.map (·.agent_duration)
    median_duration := npMedian (rs.map (·.agent_duration))
    eval_outcomes := rs.map (·.eval_outcome) }

/-- `pool.starmap(partial(run_agent_on_single_problem, ...), [(pid, stmt, 0), ..., (pid, stmt, k-1)])`:
the ordered list of the `k` rollout results, or the re-raised exception of
a failed rollout. -/
def starmap (k : Nat) (rollout : Nat → Except RolloutError DiffResult) :
    Except RolloutError (List DiffResult) :=
  (List.range k).mapM rollout

/-- The per-problem completion marker `./evals/{problem_id}_predictions.json`. -/
def predictionsMarker (pid : String) : String := pid ++ "_predictions.json"

/-- `should_process_issue`: `True` unless the predictions file for this
problem already exists in the `./evals` directory. -/
def should_process_issue (evalsDir : List String) (pid : String) : Bool :=
  !(evalsDir.contains (predictionsMarker pid))

/-- One problem as `main` sees it: its id, its statement, and the outcome
oracle of its `k` rollout workers. -/
structure ProblemRun where
  pid : String
  statement : String
  rollout : Nat → Except RolloutError DiffResult

/-- The state `main` threads through its problem loop: the in-memory
`all_diff_data`, the checkpoint file (`None` until first written), and the
set of files in `./evals`. -/
structure LoopState where
  all_diff_data : List AggregateRecord
  checkpoint : Option (List AggregateRecord)
  evalsDir : List String
deriving DecidableEq, Repr

/-- The `./evals` files after a problem's pool ran: every rollout that ran
to completion wrote `{pid}_predictions.json`, so the marker appears as
soon as at least one rollout succeeded (writing an existing file leaves
the directory's file set unchanged). -/
def markerWrites (k : Nat) (p : ProblemRun) (evalsDir : List String) : List String :=
  if (List.range k).any (fun i => (p.rollout i).isOk) then
    if evalsDir.contains (predictionsMarker p.pid) then evalsDir
    else evalsDir ++ [predictionsMarker p.pid]
  else evalsDir

/-- One iteration of the `for i in range(num_examples)` loop in `main`:
gate, pool, aggregation, checkpoint rewrite.  A raising `starmap` is
caught by the surrounding `except Exception`, which logs and continues:
no record is appended and the checkpoint file is not rewritten. -/
def processOne (k : Nat) (s : LoopState) (p : ProblemRun) : LoopState :=
  if should_process_issue s.evalsDir p.pid then
    let evalsDir' := markerWrites k p s.evalsDir
    match starmap k p.rollout with
    | .error _ => { s with evalsDir := evalsDir' }
    | .ok rs =>
        let all' := s.all_diff_data ++ [mkAggregateRecord p.pid p.statement rs]
        { all_diff_data := all', checkpoint := some all', evalsDir := evalsDir' }
  else s

/-- The whole problem loop of `main` over an ordered list of problems. -/
def runLoop (k : Nat) (s : LoopState) (ps : List ProblemRun) : LoopState :=
  ps.foldl (processOne k) s

/-- `main` starts with an empty `all_diff_data`, no checkpoint file, and
an empty `./evals` directory. -/
def initialState : LoopState :=
  { all_diff_data := [], checkpoint := none, evalsDir := [] }

/-- How the `./evals` file set evolves across one loop iteration. -/
def stepEvalsDir (k : Nat) (evalsDir : List String) (p : ProblemRun) : List String :=
  if should_process_issue evalsDir p.pid then markerWrites k p evalsDir else evalsDir

/-- Whether a problem completes (gate passes and every rollout returns),
i.e. whether this iteration appends an aggregate record. -/
def completesProblem (k : Nat) (evalsDir : List String) (p : ProblemRun) : Bool :=
  should_process_issue evalsDir p.pid && (starmap k p.rollout).isOk

/-- The number of problems of the list that complete, starting from a
given `./evals` file set. -/
def completedCount (k : Nat) : List String → List ProblemRun → Nat
  | _, [] => 0
  | ed, p :: ps =>
      (if completesProblem k ed p then 1 else 0) +
        completedCount k (stepEvalsDir k ed p) ps

/-! ### Concurrency bound

`MAX_DOCKER_CONCURRENCY = 4` (src/utils/docker_utils.py).  Every worker of
a problem's pool shares one counting semaphore of that capacity
(`manager.Semaphore(MAX_DOCKER_CONCURRENCY)` in `main`), and
`start_container` wraps each of its two expensive daemon operations —
`client.images.pull(...)` and `client.containers.run(...)` — in
`with semaphore:`.  The pool is a transition system: a worker may enter
one of the guarded blocks only while fewer than `MAX_DOCKER_CONCURRENCY`
workers hold a permit. -/

/-- The configured maximum number of simultaneous sandbox-acquisition
operations. -/
def MAX_DOCKER_CONCURRENCY : Nat := 4

/-- Where one worker stands relative to the two `with semaphore:` blocks
of `start_container`. -/
inductive WorkerPhase where
  | beforePull
  | pulling
  | betweenOps
  | starting
  | past
deriving DecidableEq, Repr

/-- A worker holds one of the semaphore's permits exactly while inside one
of the two guarded blocks. -/
def holdsSemaphore : WorkerPhase → Bool
  | .pulling => true
  | .starting => true
  | _ => false

/-- The number of sandbox-acquisition operations currently in flight. -/
def opsInFlight (ws : List WorkerPhase) : Nat :=
  ws.countP (fun w => holdsSemaphore w)

/-- Interleaving steps of a pool of workers: entering a guarded block
acquires a permit (possible only when one is free), leaving it releases
the permit. -/
inductive PoolStep : List WorkerPhase → List WorkerPhase → Prop where
  | acquireForPull (pre post : List WorkerPhase)
      (hfree : opsInFlight (pre ++ WorkerPhase.beforePull :: post) < MAX_DOCKER_CONCURRENCY) :
      PoolStep (pre ++ WorkerPhase.beforePull :: post) (pre ++ WorkerPhase.pulling :: post)
  | finishPull (pre post : List WorkerPhase) :
      PoolStep (pre ++ WorkerPhase.pulling :: post) (pre ++ WorkerPhase.betweenOps :: post)
  | acquireForStart (pre post : List WorkerPhase)
      (hfree : opsInFlight (pre ++ WorkerPhase.betweenOps :: post) < MAX_DOCKER_CONCURRENCY) :
      PoolStep (pre ++ WorkerPhase.betweenOps :: post) (pre ++ WorkerPhase.starting :: post)
  | finishStart (pre post : List WorkerPhase) :
      PoolStep (pre ++ WorkerPhase.starting :: post) (pre ++ WorkerPhase.past :: post)

/-- The pool states reachable from the start state of any pool width:
every worker still before its image pull. -/
inductive PoolReachable : List WorkerPhase → Prop where
  | init (width : Nat) : PoolReachable (List.replicate width WorkerPhase.beforePull)
  | step {ws ws' : List WorkerPhase} :
      PoolReachable ws → PoolStep ws ws' → PoolReachable ws'

end Orchestrator

namespace SearchTool

/-! ### SearchTool.run_impl (src/tools/search.py)

The Exa API call `exa.search_and_contents(query, num_results=..., text=...)`
is the oracle parameter: it either returns the result list or raises, with
the raised exception rendered as its `str(e)` message. -/

/-- One Exa search result, as the fields `run_impl` reads
(`result.title`, `result.url`, `result.text`). -/
structure SearchResult where
  title : String
  url : String
  text : String
deriving DecidableEq, Repr

/-- The `auxiliary_data` dict of the three return sites of `run_impl`:
`success` and `query` always present, `num_results` and `raw_results`
only on the sites that set them. -/
structure AuxiliaryData where
  success : Bool
  query : String
  num_results : Option Nat
  raw_results : Option (List String)
deriving DecidableEq, Repr

/-- Modelled from the spec: the structured output of a capability-tool
invocation (spec §6 Agent Runner / §9 capability tools).  The class
`utils.common.ToolImplOutput` itself is outside `src/`; its three fields
are taken from the keyword constructor calls in `src/tools/search.py`. -/
structure ToolImplOutput where
  tool_output : String
  tool_result_message : String
  auxiliary_data : AuxiliaryData
deriving DecidableEq, Repr

/-- The ASCII single-quote character, used by the f-strings of `run_impl`. -/
def singleQuote : String := ⟨[Char.ofNat 39]⟩

/-- A query wrapped in single quotes, as in the f-strings of `run_impl`. -/
def quoted (s : String) : String := singleQuote ++ s ++ singleQuote

/-- One line of the formatted output:
`f"{i}. {result.title}\n   URL: {result.url} \n   Content: {result.text}"`. -/
def formatResult (i : Nat) (r : SearchResult) : String :=
  toString i ++ ". " ++ r.title ++ "\n   URL: " ++ r.url ++ " \n   Content: " ++ r.text

/-- `enumerate(results, 1)` mapped through `formatResult`. -/
def formattedResults (results : List SearchResult) : List String :=
  results.enum.map fun p => formatResult (p.1 + 1) p.2

/-- `SearchTool.run_impl` for an input that has a `"query"` key: reads
`num_results` with default 5, calls the Exa API inside `try`, and returns
one of its three `ToolImplOutput`s; `except Exception as e` converts a
raise into the error-shaped output. -/
def run_impl (exaSearchAndContents : String → Nat → Except String (List SearchResult))
    (query : String) (numResultsInput : Option Nat) : ToolImplOutput :=
  let num_results := numResultsInput.getD 5
  match exaSearchAndContents query num_results with
  | .error e =>
      { tool_output := "Error searching for " ++ quoted query ++ ": " ++ e
        tool_result_message := "Error searching for " ++ quoted query ++ ": " ++ e
        auxiliary_data :=
          { success := false, query := query, num_results := none, raw_results := none } }
  | .ok [] =>
      { tool_output := "No results found for " ++ quoted query ++ "."
        tool_result_message := "Searched for " ++ quoted query ++ " but found no results."
        auxiliary_data :=
          { success := true, query := query, num_results := some 0, raw_results := none } }
  | .ok results =>
      { tool_output := String.intercalate "\n\n" (formattedResults results)
        tool_result_message := "Searched for " ++ quoted query ++ " and found "
          ++ toString results.length ++ " results."
        auxiliary_data :=
          { success := true, query := query, num_results := some results.length
            raw_results := some (formattedResults results) } }

end SearchTool

namespace Orchestrator

/-! ## Helper lemmas -/

theorem range'_drop (m : Nat) :
    ∀ s len : Nat, (List.range' s len).drop m = List.range' (s + m) (len - m) := by
  induction m with
  | zero => simp
  | succ m ih =>
      intro s len
      cases len with
      | zero => simp
      | succ l =>
          rw [List.range'_succ, List.drop_succ_cons, ih (s + 1) l]
          congr 1 <;> omega

theorem range'_take (m : Nat) :
    ∀ s len : Nat, (List.range' s len).take m = List.range' s (min m len) := by
  induction m with
  | zero => simp
  | succ m ih =>
      intro s len
      cases len with
      | zero => simp
      | succ l =>
          rw [List.range'_succ, List.take_succ_cons, ih (s + 1) l]
          have h : min (m + 1) (l + 1) = min m l + 1 := by omega
          rw [h, List.range'_succ]

/-- Membership in the slice `iloc[s*q : (s+1)*q]` for a legal shard id. -/
theorem mem_shardSlice {n c s : Nat} (hs : s < c) (i : Nat) :
    i ∈ shardSlice n c s ↔ s * (n / c) ≤ i ∧ i < (s + 1) * (n / c) := by
  have hbn : (s + 1) * (n / c) ≤ n := by
    calc (s + 1) * (n / c) ≤ c * (n / c) := Nat.mul_le_mul_right _ hs
    _ ≤ n := Nat.mul_div_le n c
  simp only [shardSlice, num_examples_per_shard]
  rw [List.range_eq_range', range'_drop, range'_take, List.mem_range'_1]
  simp only [Nat.zero_add]
  omega

theorem lt_div_succ_mul (a b : Nat) (hb : 0 < b) : a < (a / b + 1) * b := by
  have h1 := Nat.div_add_mod a b
  have h2 : a % b < b := Nat.mod_lt _ hb
  calc a = b * (a / b) + a % b := h1.symm
  _ < b * (a / b) + b := by omega
  _ = (a / b + 1) * b := by ring

/-! ## Claim theorems -/

/-- C6: for every ordered problem set of size `n` and every `shard_ct`,
shard `shard_id` gets the contiguous slice
`[shard_id * floor(n/shard_ct), (shard_id+1) * floor(n/shard_ct))`; for
fixed `shard_ct` the shards are pairwise disjoint, every id below
`shard_ct * floor(n/shard_ct)` is covered by exactly one shard, and the
trailing remainder ids are excluded from every shard. -/
theorem shard_planner_partition (n c : Nat) :
    (∀ s, s < c → ∀ i, i ∈ shardSlice n c s ↔
        s * (n / c) ≤ i ∧ i < (s + 1) * (n / c)) ∧
    (∀ s₁ s₂, s₁ < c → s₂ < c → s₁ ≠ s₂ →
        ∀ i, i ∈ shardSlice n c s₁ → i ∉ shardSlice n c s₂) ∧
    (∀ i, i < c * (n / c) → ∃! s, s < c ∧ i ∈ shardSlice n c s) ∧
    (∀ i, c * (n / c) ≤ i → ∀ s, s < c → i ∉ shardSlice n c s) := by
  refine ⟨fun s hs i => mem_shardSlice hs i, ?_, ?_, ?_⟩
  · intro s₁ s₂ h₁ h₂ hne i hi₁ hi₂
    rw [mem_shardSlice h₁] at hi₁
    rw [mem_shardSlice h₂] at hi₂
    exact hne ((Nat.div_eq_of_lt_le hi₁.1 hi₁.2).symm.trans
      (Nat.div_eq_of_lt_le hi₂.1 hi₂.2))
  · intro i hi
    have hq : 0 < n / c := by
      rcases Nat.eq_zero_or_pos (n / c) with h | h
      · rw [h, Nat.mul_zero] at hi; omega
      · exact h
    refine ⟨i / (n / c), ⟨(Nat.div_lt_iff_lt_mul hq).mpr hi, ?_⟩, ?_⟩
    · exact (mem_shardSlice ((Nat.div_lt_iff_lt_mul hq).mpr hi) i).mpr
        ⟨Nat.div_mul_le_self i _, lt_div_succ_mul i _ hq⟩
    · intro s hs
      rw [mem_shardSlice hs.1] at hs
      exact (Nat.div_eq_of_lt_le hs.2.1 hs.2.2).symm
  · intro i hi s hs hmem
    rw [mem_shardSlice hs] at hmem
    have : (s + 1) * (n / c) ≤ c * (n / c) := Nat.mul_le_mul_right _ hs
    omega

/-- Witness for C6 on a 10-problem dataset with 3 shards (`q = 3`):
id 4 sits in shard 1 and not in shard 2, id 7 is covered by exactly one
shard, and the remainder id 9 is excluded from shard 2. -/
theorem shard_planner_partition_witness :
    (4 ∈ shardSlice 10 3 1 ↔ 1 * (10 / 3) ≤ 4 ∧ 4 < (1 + 1) * (10 / 3)) ∧
    (4 ∈ shardSlice 10 3 1 → 4 ∉ shardSlice 10 3 2) ∧
    (∃! s, s < 3 ∧ 7 ∈ shardSlice 10 3 s) ∧
    9 ∉ shardSlice 10 3 2 := by
  obtain ⟨h₁, h₂, h₃, h₄⟩ := shard_planner_partition 10 3
  exact ⟨h₁ 1 (by decide) 4, h₂ 1 2 (by decide) (by decide) (by decide) 4,
    h₃ 7 (by decide), h₄ 9 (by decide) 2 (by decide)⟩

/-- C7: the run fails with a configuration error, before any problem is
processed, iff `num_examples` is set and exceeds the selected shard
slice's length; otherwise it processes exactly the ordered prefix of the
slice of length `num_examples` (the full slice when unset).  With
`shard_ct = 2`, `shard_id = 0` on a 10-problem dataset, `num_examples = 3`
selects problems 0..2 and `num_examples = 6` fails. -/
theorem num_examples_gate (n c s : Nat) (numEx : Option Nat) :
    ((selectExamples n c s numEx).isOk = false ↔
        ∃ k, numEx = some k ∧ (shardSlice n c s).length < k) ∧
    (numEx = none → selectExamples n c s numEx = .ok (shardSlice n c s)) ∧
    (∀ k, numEx = some k → k ≤ (shardSlice n c s).length →
        selectExamples n c s numEx = .ok ((shardSlice n c s).take k)) ∧
    selectExamples 10 2 0 (some 3) = .ok [0, 1, 2] ∧
    selectExamples 10 2 0 (some 6) =
      .error (.numExamplesExceedsShard 6 5) := by
  refine ⟨?_, ?_, ?_, rfl, rfl⟩
  · cases numEx with
    | none => simp [selectExamples, Except.isOk, Except.toBool]
    | some k =>
        simp only [selectExamples]
        by_cases h : k ≤ (shardSlice n c s).length
        · simp only [if_pos h]
          simp [Except.isOk, Except.toBool]
          omega
        · simp only [if_neg h]
          simp [Except.isOk, Except.toBool]
          omega
  · intro h
    subst h
    rfl
  · intro k hk hlen
    subst hk
    simp [selectExamples, hlen]

/-- Witness for C7: on the 10-problem, 2-shard scenario the cap 3 selects
the length-3 prefix, the cap 6 aborts, and an unset cap keeps the whole
slice. -/
theorem num_examples_gate_witness :
    selectExamples 10 2 0 none = .ok (shardSlice 10 2 0) ∧
    selectExamples 10 2 0 (some 3) = .ok ((shardSlice 10 2 0).take 3) ∧
    (selectExamples 10 2 0 (some 6)).isOk = false := by
  obtain ⟨h₁, h₂, h₃, _, _⟩ := num_examples_gate 10 2 0 none
  obtain ⟨g₁, g₂, g₃, _, _⟩ := num_examples_gate 10 2 0 (some 3)
  obtain ⟨e₁, e₂, e₃, _, _⟩ := num_examples_gate 10 2 0 (some 6)
  exact ⟨h₂ rfl, g₃ 3 rfl (by decide), e₁.mpr ⟨6, rfl, by decide⟩⟩

end Orchestrator

namespace Orchestrator

/-- Counterexample to C1: inject a copy-out failure (`docker cp` raises
`CalledProcessError`, re-raised by `start_container`).  The container was
created, but the id never reaches `run_agent_on_single_problem`, whose
`finally` block sees `container_id is None`: zero release operations run
for the acquired sandbox. -/
theorem teardown_skipped_on_copy_failure :
    0 ∈ createdContainers (run_agent_on_single_problem
      { pullOk := true, startOk := true, copyOk := false, agentOk := true,
        diffOk := true, patchText := "" } 0 "astropy__astropy-12907").1 ∧
    stopCount (run_agent_on_single_problem
      { pullOk := true, startOk := true, copyOk := false, agentOk := true,
        diffOk := true, patchText := "" } 0 "astropy__astropy-12907").1 0 = 0 := by
  decide

/-- C1 as amended: on every exit path, `stop_container` runs exactly once
for every container whose id `setup_workspace` returned to
`run_agent_on_single_problem` (success, agent exception, diff-extraction
exception); but when copy-out fails after the container is created, the
exception propagates before the id is returned and the created container
is never stopped. -/
theorem teardown_exactly_once_when_acquired_id_returned
    (f : FaultSpec) (cid : Nat) (pid : String) :
    (f.copyOk = true →
        ∀ c ∈ createdContainers (run_agent_on_single_problem f cid pid).1,
          stopCount (run_agent_on_single_problem f cid pid).1 c = 1) ∧
    (f.copyOk = false →
        ∀ c ∈ createdContainers (run_agent_on_single_problem f cid pid).1,
          stopCount (run_agent_on_single_problem f cid pid).1 c = 0) := by
  obtain ⟨pull, start, copy, agent, diff, patch⟩ := f
  cases pull <;> cases start <;> cases copy <;> cases agent <;> cases diff <;>
    simp [run_agent_on_single_problem, setup_workspace, start_container,
      createdContainers, stopCount]

/-- Witness for the amended C1: with the agent raising but acquisition
complete, container 7 is stopped exactly once. -/
theorem teardown_exactly_once_witness :
    stopCount (run_agent_on_single_problem
      { pullOk := true, startOk := true, copyOk := true, agentOk := false,
        diffOk := true, patchText := "" } 7 "django__django-11001").1 7 = 1 := by
  exact (teardown_exactly_once_when_acquired_id_returned
    { pullOk := true, startOk := true, copyOk := true, agentOk := false,
      diffOk := true, patchText := "" } 7 "django__django-11001").1 rfl 7 (by decide)

/-- Counterexample to C2: when `cli_main()` raises, the exception
propagates past `generate_patch` (there is no `except` between them): the
agent was invoked but no diff computation is ever attempted. -/
theorem no_patch_attempt_when_agent_raises :
    Ev.agentInvoked ∈ (run_agent_on_single_problem
      { pullOk := true, startOk := true, copyOk := true, agentOk := false,
        diffOk := true, patchText := "" } 0 "sympy__sympy-13177").1 ∧
    Ev.generatePatch ∉ (run_agent_on_single_problem
      { pullOk := true, startOk := true, copyOk := true, agentOk := false,
        diffOk := true, patchText := "" } 0 "sympy__sympy-13177").1 := by
  decide

/-- C2 as amended: `generate_patch` is attempted exactly when the agent
invocation happened and returned normally; when `cli_main()` raises, no
DiffResult is attempted and the exception propagates (after the `finally`
teardown). -/
theorem patch_attempt_iff_agent_returns (f : FaultSpec) (cid : Nat) (pid : String) :
    Ev.generatePatch ∈ (run_agent_on_single_problem f cid pid).1 ↔
      Ev.agentInvoked ∈ (run_agent_on_single_problem f cid pid).1 ∧
        f.agentOk = true := by
  obtain ⟨pull, start, copy, agent, diff, patch⟩ := f
  cases pull <;> cases start <;> cases copy <;> cases agent <;> cases diff <;>
    simp [run_agent_on_single_problem, setup_workspace, start_container]

/-- Witness for the amended C2: on a fully successful rollout the patch
attempt is present. -/
theorem patch_attempt_iff_agent_returns_witness :
    Ev.generatePatch ∈ (run_agent_on_single_problem
      { pullOk := true, startOk := true, copyOk := true, agentOk := true,
        diffOk := true, patchText := "p" } 3 "scikit-learn__scikit-learn-13142").1 := by
  exact (patch_attempt_iff_agent_returns
    { pullOk := true, startOk := true, copyOk := true, agentOk := true,
      diffOk := true, patchText := "p" } 3 "scikit-learn__scikit-learn-13142").mpr
    ⟨by decide, rfl⟩

end Orchestrator

namespace Orchestrator

theorem mapM_except_isOk {α β ε : Type} (f : α → Except ε β) :
    ∀ l : List α, (l.mapM f).isOk = l.all (fun a => (f a).isOk) := by
  intro l
  induction l with
  | nil => rfl
  | cons a l ih =>
      rw [List.mapM_cons, List.all_cons]
      cases h : f a with
      | error e =>
          simp [h, Except.isOk, Except.toBool, Except.bind, bind]
      | ok b =>
          rw [← ih]
          cases hl : l.mapM f with
          | error e =>
              simp [h, hl, Except.isOk, Except.toBool, Except.bind, bind, pure, Except.pure]
          | ok bs =>
              simp [h, hl, Except.isOk, Except.toBool, Except.bind, bind, pure, Except.pure]

theorem mapM_except_length {α β ε : Type} (f : α → Except ε β) :
    ∀ (l : List α) (bs : List β), l.mapM f = .ok bs → bs.length = l.length := by
  intro l
  induction l with
  | nil =>
      intro bs h
      have h' : (Except.ok [] : Except ε (List β)) = .ok bs := h
      cases h'
      rfl
  | cons a l ih =>
      intro bs h
      rw [List.mapM_cons] at h
      cases ha : f a with
      | error e =>
          rw [ha] at h
          exact absurd h (by intro hh; cases hh)
      | ok b =>
          rw [ha] at h
          cases hl : l.mapM f with
          | error e =>
              rw [show ((Except.ok b : Except ε β) >>= fun b =>
                    l.mapM f >>= fun bs => pure (b :: bs)) =
                  l.mapM f >>= fun bs => pure (b :: bs) from rfl, hl] at h
              exact absurd h (by intro hh; cases hh)
          | ok cs =>
              rw [show ((Except.ok b : Except ε β) >>= fun b =>
                    l.mapM f >>= fun bs => pure (b :: bs)) =
                  l.mapM f >>= fun bs => pure (b :: bs) from rfl, hl] at h
              have h' : (Except.ok (b :: cs) : Except ε (List β)) = .ok bs := h
              cases h'
              simp [ih cs hl]

/-- `pool.starmap` succeeds exactly when every rollout of the pool does. -/
theorem starmap_isOk (k : Nat) (r : Nat → Except RolloutError DiffResult) :
    (starmap k r).isOk = (List.range k).all (fun i => (r i).isOk) :=
  mapM_except_isOk r (List.range k)

/-- The evolution of the `./evals` directory across one loop iteration. -/
theorem processOne_evalsDir (k : Nat) (s : LoopState) (p : ProblemRun) :
    (processOne k s p).evalsDir = stepEvalsDir k s.evalsDir p := by
  unfold processOne stepEvalsDir
  by_cases h : should_process_issue s.evalsDir p.pid
  · cases hst : starmap k p.rollout <;> simp [h, hst]
  · simp [h]

/-- One loop iteration appends one record when the problem completes and
none otherwise. -/
theorem processOne_length (k : Nat) (s : LoopState) (p : ProblemRun) :
    (processOne k s p).all_diff_data.length =
      s.all_diff_data.length +
        (if completesProblem k s.evalsDir p then 1 else 0) := by
  unfold processOne completesProblem
  by_cases h : should_process_issue s.evalsDir p.pid
  · cases hst : starmap k p.rollout with
    | error e => simp [h, hst, Except.isOk, Except.toBool]
    | ok rs => simp [h, hst, Except.isOk, Except.toBool]
  · simp [h]

/-- One loop iteration never rewrites the checkpoint to anything but the
complete current `all_diff_data`. -/
theorem processOne_checkpoint_inv (k : Nat) (s : LoopState) (p : ProblemRun)
    (h : s.checkpoint =
      if s.all_diff_data = [] then none else some s.all_diff_data) :
    (processOne k s p).checkpoint =
      if (processOne k s p).all_diff_data = [] then none
      else some (processOne k s p).all_diff_data := by
  unfold processOne
  by_cases hg : should_process_issue s.evalsDir p.pid
  · cases hst : starmap k p.rollout with
    | error e => simp [hg, hst, h]
    | ok rs => simp [hg, hst]
  · simp [hg, h]

/-- One loop iteration only ever extends `all_diff_data`. -/
theorem processOne_extends (k : Nat) (s : LoopState) (p : ProblemRun) :
    ∃ tail, (processOne k s p).all_diff_data = s.all_diff_data ++ tail := by
  unfold processOne
  by_cases hg : should_process_issue s.evalsDir p.pid
  · cases hst : starmap k p.rollout with
    | error e => exact ⟨[], by simp [hg, hst]⟩
    | ok rs => exact ⟨[mkAggregateRecord p.pid p.statement rs], by simp [hg, hst]⟩
  · exact ⟨[], by simp [hg]⟩

theorem runLoop_length (k : Nat) :
    ∀ (ps : List ProblemRun) (s : LoopState),
      (runLoop k s ps).all_diff_data.length =
        s.all_diff_data.length + completedCount k s.evalsDir ps := by
  intro ps
  induction ps with
  | nil => intro s; simp [runLoop, completedCount]
  | cons p ps ih =>
      intro s
      show (runLoop k (processOne k s p) ps).all_diff_data.length = _
      rw [ih (processOne k s p), processOne_length, processOne_evalsDir, completedCount]
      omega

theorem runLoop_checkpoint_inv (k : Nat) :
    ∀ (ps : List ProblemRun) (s : LoopState),
      s.checkpoint = (if s.all_diff_data = [] then none else some s.all_diff_data) →
      (runLoop k s ps).checkpoint =
        if (runLoop k s ps).all_diff_data = [] then none
        else some (runLoop k s ps).all_diff_data := by
  intro ps
  induction ps with
  | nil => intro s h; exact h
  | cons p ps ih =>
      intro s h
      exact ih (processOne k s p) (processOne_checkpoint_inv k s p h)

theorem runLoop_extends (k : Nat) :
    ∀ (ps : List ProblemRun) (s : LoopState),
      ∃ tail, (runLoop k s ps).all_diff_data = s.all_diff_data ++ tail := by
  intro ps
  induction ps with
  | nil => intro s; exact ⟨[], by simp [runLoop]⟩
  | cons p ps ih =>
      intro s
      obtain ⟨t₁, h₁⟩ := processOne_extends k s p
      obtain ⟨t₂, h₂⟩ := ih (processOne k s p)
      exact ⟨t₁ ++ t₂, by
        show (runLoop k (processOne k s p) ps).all_diff_data = _
        rw [h₂, h₁, List.append_assoc]⟩

end Orchestrator

namespace Orchestrator

/-- Counterexample to C3: sandbox acquisition fails for rollout 2 of 4
(index 1).  `pool.starmap` re-raises the worker's exception, the
`except Exception` handler catches it, and the problem's aggregate record
is never created: `all_diff_data` stays empty and no checkpoint is
written, instead of a 4-entry record with a failure-marked slot. -/
theorem pool_abort_discards_siblings :
    (processOne 4 initialState
      { pid := "matplotlib__matplotlib-23299", statement := "stmt",
        rollout := fun i =>
          if i = 1 then .error .pullFailed
          else .ok { diff := "d", agent_duration := 10, eval_outcome := true } }).all_diff_data
      = [] ∧
    (processOne 4 initialState
      { pid := "matplotlib__matplotlib-23299", statement := "stmt",
        rollout := fun i =>
          if i = 1 then .error .pullFailed
          else .ok { diff := "d", agent_duration := 10, eval_outcome := true } }).checkpoint
      = none := by
  decide

/-- C3 as amended: when any rollout of a problem's pool raises,
`pool.starmap` re-raises in the parent; the per-problem handler catches
it, so no aggregate record is appended for that problem and the sibling
rollouts' completed results are discarded (the checkpoint is left exactly
as it was, so other problems' records are unaffected). -/
theorem pool_abort_on_worker_failure (k : Nat) (s : LoopState) (p : ProblemRun)
    (i : Nat) (hik : i < k) (hfail : (p.rollout i).isOk = false) :
    (processOne k s p).all_diff_data = s.all_diff_data ∧
    (processOne k s p).checkpoint = s.checkpoint := by
  have hnotall : (List.range k).all (fun j => (p.rollout j).isOk) = false := by
    apply List.all_eq_false.mpr
    exact ⟨i, List.mem_range.mpr hik, by simp [hfail]⟩
  have hko : (starmap k p.rollout).isOk = false := by
    rw [starmap_isOk, hnotall]
  unfold processOne
  by_cases hg : should_process_issue s.evalsDir p.pid
  · cases hst : starmap k p.rollout with
    | error e => simp [hg, hst]
    | ok rs => rw [hst] at hko; exact absurd hko (by simp [Except.isOk, Except.toBool])
  · simp [hg]

/-- Witness for the amended C3: the concrete 4-rollout pool with worker 1
failing leaves a one-record state untouched. -/
theorem pool_abort_on_worker_failure_witness :
    (processOne 4
      { all_diff_data := [mkAggregateRecord "done__done-1" "s0" []],
        checkpoint := some [mkAggregateRecord "done__done-1" "s0" []],
        evalsDir := ["done__done-1_predictions.json"] }
      { pid := "pytest-dev__pytest-5227", statement := "stmt",
        rollout := fun i =>
          if i = 1 then .error .containerStartFailed
          else .ok { diff := "d", agent_duration := 9, eval_outcome := false } }).all_diff_data
      = [mkAggregateRecord "done__done-1" "s0" []] := by
  exact (pool_abort_on_worker_failure 4
    { all_diff_data := [mkAggregateRecord "done__done-1" "s0" []],
      checkpoint := some [mkAggregateRecord "done__done-1" "s0" []],
      evalsDir := ["done__done-1_predictions.json"] }
    { pid := "pytest-dev__pytest-5227", statement := "stmt",
      rollout := fun i =>
        if i = 1 then .error .containerStartFailed
        else .ok { diff := "d", agent_duration := 9, eval_outcome := false } }
    1 (by decide) (by decide)).1

/-- C5: after any prefix of the problem loop the checkpoint file is the
complete serialized snapshot of the in-memory `all_diff_data` (absent only
while no problem has completed), `all_diff_data` holds exactly one record
per problem completed so far in this run, and processing further problems
only ever extends it — so terminating between problem N and N+1 leaves a
complete, parseable checkpoint with exactly the records completed so
far. -/
theorem checkpoint_snapshot (k : Nat) (ps₁ ps₂ : List ProblemRun) :
    ((runLoop k initialState ps₁).checkpoint =
        if (runLoop k initialState ps₁).all_diff_data = [] then none
        else some ((runLoop k initialState ps₁).all_diff_data)) ∧
    (runLoop k initialState ps₁).all_diff_data.length = completedCount k [] ps₁ ∧
    ∃ tail, (runLoop k initialState (ps₁ ++ ps₂)).all_diff_data =
        (runLoop k initialState ps₁).all_diff_data ++ tail := by
  refine ⟨runLoop_checkpoint_inv k ps₁ initialState (by simp [initialState]), ?_, ?_⟩
  · rw [runLoop_length]
    simp [initialState]
  · rw [runLoop, List.foldl_append]
    exact runLoop_extends k ps₂ (runLoop k initialState ps₁)

/-- A gate that answers "skip" leaves the iteration's state untouched:
the whole loop body is under `if should_process_issue(problem_id):`. -/
theorem processOne_skip (k : Nat) (s : LoopState) (p : ProblemRun)
    (h : should_process_issue s.evalsDir p.pid = false) :
    processOne k s p = s := by
  simp [processOne, h]

/-- C8: the Resume Gate returns "skip" iff the per-problem predictions
file exists in `./evals`; after one successful completion the marker
exists, a second invocation for the same problem returns "skip", and the
skipped iteration leaves the whole state — the checkpoint record
included — unchanged. -/
theorem resume_gate_idempotent (k : Nat) (s : LoopState) (p : ProblemRun)
    (hk : 0 < k)
    (hnew : should_process_issue s.evalsDir p.pid = true)
    (hall : ∀ i, i < k → (p.rollout i).isOk = true) :
    (∀ ed pid, should_process_issue ed pid = false ↔ predictionsMarker pid ∈ ed) ∧
    should_process_issue (processOne k s p).evalsDir p.pid = false ∧
    processOne k (processOne k s p) p = processOne k s p := by
  have hmemiff : ∀ ed pid, should_process_issue ed pid = false ↔ predictionsMarker pid ∈ ed := by
    intro ed pid
    simp [should_process_issue]
  have hallok : (List.range k).all (fun i => (p.rollout i).isOk) = true := by
    apply List.all_eq_true.mpr
    intro i hi
    exact hall i (List.mem_range.mp hi)
  have hok : (starmap k p.rollout).isOk = true := by rw [starmap_isOk, hallok]
  obtain ⟨rs, hrs⟩ : ∃ rs, starmap k p.rollout = .ok rs := by
    cases hst : starmap k p.rollout with
    | error e => rw [hst] at hok; exact absurd hok (by simp [Except.isOk, Except.toBool])
    | ok rs => exact ⟨rs, rfl⟩
  have hany : (List.range k).any (fun i => (p.rollout i).isOk) = true := by
    apply List.any_eq_true.mpr
    exact ⟨0, List.mem_range.mpr hk, hall 0 hk⟩
  have hcf : s.evalsDir.contains (predictionsMarker p.pid) = false := by
    cases hc : s.evalsDir.contains (predictionsMarker p.pid) with
    | false => rfl
    | true =>
        unfold should_process_issue at hnew
        rw [hc] at hnew
        simp at hnew
  have hnm : predictionsMarker p.pid ∉ s.evalsDir := by
    intro hmem
    have hct : s.evalsDir.contains (predictionsMarker p.pid) = true := by
      simp [hmem]
    rw [hct] at hcf
    exact absurd hcf (by simp)
  have hmarks : markerWrites k p s.evalsDir = s.evalsDir ++ [predictionsMarker p.pid] := by
    simp [markerWrites, hany, hcf, hnm]
  have hafter : (processOne k s p).evalsDir = s.evalsDir ++ [predictionsMarker p.pid] := by
    rw [← hmarks]
    simp [processOne, hnew, hrs]
  have hskip : should_process_issue (processOne k s p).evalsDir p.pid = false := by
    rw [hafter]
    apply (hmemiff _ _).mpr
    simp
  exact ⟨hmemiff, hskip, processOne_skip k _ p hskip⟩

end Orchestrator

namespace Orchestrator

/-- Witness for C8: a 2-rollout problem completing against a fresh state
makes the gate answer "skip" and the repeated iteration a no-op. -/
theorem resume_gate_idempotent_witness :
    should_process_issue (processOne 2 initialState
      { pid := "django__django-11019", statement := "stmt",
        rollout := fun _ =>
          .ok { diff := "d", agent_duration := 5, eval_outcome := true } }).evalsDir
      "django__django-11019" = false ∧
    processOne 2 (processOne 2 initialState
      { pid := "django__django-11019", statement := "stmt",
        rollout := fun _ =>
          .ok { diff := "d", agent_duration := 5, eval_outcome := true } })
      { pid := "django__django-11019", statement := "stmt",
        rollout := fun _ =>
          .ok { diff := "d", agent_duration := 5, eval_outcome := true } } =
    processOne 2 initialState
      { pid := "django__django-11019", statement := "stmt",
        rollout := fun _ =>
          .ok { diff := "d", agent_duration := 5, eval_outcome := true } } := by
  obtain ⟨-, h₂, h₃⟩ := resume_gate_idempotent 2 initialState
    { pid := "django__django-11019", statement := "stmt",
      rollout := fun _ =>
        .ok { diff := "d", agent_duration := 5, eval_outcome := true } }
    (by decide) rfl (fun i _ => rfl)
  exact ⟨h₂, h₃⟩

/-- C9: when a problem's pool returns (`rollout_count = k` candidate
solutions requested), exactly `k` DiffResults come back, and the appended
aggregate record — whose type carries exactly the six fields
`{id, instruction, diffs, agent_durations, median_duration, eval_outcomes}` —
has its patch, duration and verdict lists each of length `k`, its id and
instruction taken from the problem, and its median over the durations. -/
theorem aggregate_record_shape (k : Nat) (s : LoopState) (p : ProblemRun)
    (rs : List DiffResult)
    (hgate : should_process_issue s.evalsDir p.pid = true)
    (hok : starmap k p.rollout = .ok rs) :
    rs.length = k ∧
    (processOne k s p).all_diff_data =
      s.all_diff_data ++ [mkAggregateRecord p.pid p.statement rs] ∧
    (mkAggregateRecord p.pid p.statement rs).id = p.pid ∧
    (mkAggregateRecord p.pid p.statement rs).instruction = p.statement ∧
    (mkAggregateRecord p.pid p.statement rs).diffs.length = k ∧
    (mkAggregateRecord p.pid p.statement rs).agent_durations.length = k ∧
    (mkAggregateRecord p.pid p.statement rs).median_duration =
      npMedian (rs.map (fun r => r.agent_duration)) ∧
    (mkAggregateRecord p.pid p.statement rs).eval_outcomes.length = k := by
  have hlen : rs.length = k := by
    have h := mapM_except_length p.rollout (List.range k) rs hok
    simpa using h
  refine ⟨hlen, ?_, rfl, rfl, ?_, ?_, rfl, ?_⟩
  · simp [processOne, hgate, hok]
  · simp [mkAggregateRecord, hlen]
  · simp [mkAggregateRecord, hlen]
  · simp [mkAggregateRecord, hlen]

/-- Witness for C9: a concrete 4-rollout pool yields a record with
4-entry diff, duration and verdict lists. -/
theorem aggregate_record_shape_witness :
    (mkAggregateRecord "sympy__sympy-20590" "stmt"
      [{ diff := "a", agent_duration := 1, eval_outcome := true },
       { diff := "b", agent_duration := 2, eval_outcome := false },
       { diff := "c", agent_duration := 3, eval_outcome := true },
       { diff := "e", agent_duration := 4, eval_outcome := true }]).diffs.length = 4 := by
  obtain ⟨-, -, -, -, h₅, -⟩ := aggregate_record_shape 4 initialState
    { pid := "sympy__sympy-20590", statement := "stmt",
      rollout := fun i =>
        .ok { diff := ["a", "b", "c", "e"].getD i "",
              agent_duration := i + 1,
              eval_outcome := [true, false, true, true].getD i true } }
    [{ diff := "a", agent_duration := 1, eval_outcome := true },
     { diff := "b", agent_duration := 2, eval_outcome := false },
     { diff := "c", agent_duration := 3, eval_outcome := true },
     { diff := "e", agent_duration := 4, eval_outcome := true }]
    rfl rfl
  exact h₅

end Orchestrator

namespace Orchestrator

theorem opsInFlight_replicate (w : Nat) :
    opsInFlight (List.replicate w WorkerPhase.beforePull) = 0 := by
  induction w with
  | zero => rfl
  | succ w ih =>
      rw [List.replicate_succ]
      simp [opsInFlight, List.countP_cons, holdsSemaphore]

/-- C4: in every pool state reachable from any worker-pool width, the
number of sandbox-acquisition operations (image pulls and container
starts) concurrently in flight never exceeds `MAX_DOCKER_CONCURRENCY`,
because each such operation is performed while holding a permit of the
single counting semaphore shared by all workers. -/
theorem pool_semaphore_bound (ws : List WorkerPhase) (h : PoolReachable ws) :
    opsInFlight ws ≤ MAX_DOCKER_CONCURRENCY := by
  induction h with
  | init width => rw [opsInFlight_replicate]; exact Nat.zero_le _
  | step hreach hstep ih =>
      cases hstep with
      | acquireForPull pre post hfree =>
          simp [opsInFlight, List.countP_append, List.countP_cons,
            holdsSemaphore] at hfree ih ⊢
          omega
      | finishPull pre post =>
          simp [opsInFlight, List.countP_append, List.countP_cons,
            holdsSemaphore] at ih ⊢
          omega
      | acquireForStart pre post hfree =>
          simp [opsInFlight, List.countP_append, List.countP_cons,
            holdsSemaphore] at hfree ih ⊢
          omega
      | finishStart pre post =>
          simp [opsInFlight, List.countP_append, List.countP_cons,
            holdsSemaphore] at ih ⊢
          omega

/-- Witness for C4: an 8-worker pool in which the first worker has just
acquired the semaphore for its image pull is a reachable state within the
bound. -/
theorem pool_semaphore_bound_witness :
    opsInFlight (WorkerPhase.pulling :: List.replicate 7 WorkerPhase.beforePull) ≤
      MAX_DOCKER_CONCURRENCY := by
  refine pool_semaphore_bound _ (PoolReachable.step (PoolReachable.init 8) ?_)
  exact PoolStep.acquireForPull [] (List.replicate 7 WorkerPhase.beforePull) (by decide)

end Orchestrator

namespace SearchTool

/-- C10: `SearchTool.run_impl` is total for any input holding a `"query"`
key: it always returns a `ToolImplOutput` (never propagates the Exa
call's exception), its `auxiliary_data.success` is `true` exactly when
the external search call returned without raising, `num_results` defaults
to 5 when absent, the error message is embedded in the output on failure,
and on success `num_results` reports the result count. -/
theorem run_impl_reports_call_outcome
    (f : String → Nat → Except String (List SearchResult))
    (query : String) (nrIn : Option Nat) :
    run_impl f query nrIn = run_impl f query (some (nrIn.getD 5)) ∧
    (run_impl f query nrIn).auxiliary_data.success = (f query (nrIn.getD 5)).isOk ∧
    (run_impl f query nrIn).auxiliary_data.query = query ∧
    (∀ e, f query (nrIn.getD 5) = .error e →
        (run_impl f query nrIn).tool_output =
          "Error searching for " ++ quoted query ++ ": " ++ e ∧
        (run_impl f query nrIn).auxiliary_data.num_results = none) ∧
    (∀ rs, f query (nrIn.getD 5) = .ok rs →
        (run_impl f query nrIn).auxiliary_data.num_results = some rs.length) := by
  refine ⟨rfl, ?_, ?_, ?_, ?_⟩
  · cases h : f query (nrIn.getD 5) with
    | error e => simp [run_impl, h, Except.isOk, Except.toBool]
    | ok rs =>
        cases rs with
        | nil => simp [run_impl, h, Except.isOk, Except.toBool]
        | cons r rest => simp [run_impl, h, Except.isOk, Except.toBool]
  · cases h : f query (nrIn.getD 5) with
    | error e => simp [run_impl, h]
    | ok rs =>
        cases rs with
        | nil => simp [run_impl, h]
        | cons r rest => simp [run_impl, h]
  · intro e he
    simp [run_impl, he]
  · intro rs hrs
    cases rs with
    | nil => simp [run_impl, hrs]
    | cons r rest => simp [run_impl, hrs]

/-- Witness for C10: a raising Exa call yields `success = false` with the
message embedded; a one-result call with `num_results` absent (default 5)
yields `success`-shaped data with count 1. -/
theorem run_impl_reports_call_outcome_witness :
    (run_impl (fun _ _ => .error "API Error") "error query" (some 3)).auxiliary_data.success
      = false ∧
    (run_impl (fun _ _ => .error "API Error") "error query" (some 3)).tool_output
      = "Error searching for " ++ quoted "error query" ++ ": " ++ "API Error" ∧
    (run_impl
      (fun _ _ => .ok [{ title := "Test Result 1", url := "https://example.com/1", text := "t" }])
      "python testing" none).auxiliary_data.num_results = some 1 := by
  obtain ⟨-, hs, -, herr, -⟩ := run_impl_reports_call_outcome
    (fun _ _ => .error "API Error") "error query" (some 3)
  obtain ⟨-, -, -, -, hok⟩ := run_impl_reports_call_outcome
    (fun _ _ => .ok [{ title := "Test Result 1", url := "https://example.com/1", text := "t" }])
    "python testing" none
  exact ⟨by rw [hs]; rfl, (herr "API Error" rfl).1,
    hok [{ title := "Test Result 1", url := "https://example.com/1", text := "t" }] rfl⟩

end SearchTool
